import Mathlib

/-
  Verification development for the AmazonPriceAnalysis repository.

  Shallow embedding of the four source modules:
    - src/oxylabs_client.py : envelope unwrapping, normalization, title
      cleaning, search-query emission, batch scraping
    - src/services.py       : fetch_and_store_competitors orchestration
    - src/llm.py            : analyze_competition gating and report rendering

  Python/JSON values are modelled by the inductive type Json below; Python
  truthiness is Json.isFalsy.  Network and database effects are modelled by
  explicit outcome parameters (a raw response, a per-category search outcome,
  a per-ASIN fetch outcome) and, where a claim is about which effects happen,
  by explicit event traces or effect counters.  Python float values are
  modelled as rationals (Rat); Python str() of a number is modelled by
  toString.  The verified claims depend only on the structure of rendered
  text, never on the digit sequence of a number.
-/

/-- A Python/JSON value as handled by the repository: None, bool, number,
string, list, or dict (a dict is a list of key-value pairs with the keys
assumed distinct, as in a Python dict). -/
inductive Json where
  | null
  | bool (b : Bool)
  | num (n : Int)
  | str (s : String)
  | arr (xs : List Json)
  | obj (kvs : List (String × Json))
deriving Repr

/-- Python truthiness on Json values: None, False, 0, the empty string, the
empty list and the empty dict are falsy; everything else is truthy. -/
def Json.isFalsy : Json → Bool
  | .null => true
  | .bool b => !b
  | .num n => n == 0
  | .str s => s == ""
  | .arr xs => xs.isEmpty
  | .obj kvs => kvs.isEmpty

/-- Key lookup in a dict, first match wins (Python dict keys are unique). -/
def lookupKey (kvs : List (String × Json)) (k : String) : Option Json :=
  match kvs with
  | [] => none
  | (k2, v) :: rest => if k2 = k then some v else lookupKey rest k

/-- Python dict.get(k): the value under k, or None when k is absent or the
receiver is not a dict. -/
def Json.get (j : Json) (k : String) : Json :=
  match j with
  | .obj kvs => (lookupKey kvs k).getD .null
  | _ => .null

/-- Python dict.get(k, d): the value under k, or the supplied default. -/
def Json.getD (j : Json) (k : String) (d : Json) : Json :=
  match j with
  | .obj kvs => (lookupKey kvs k).getD d
  | _ => d

/-- The elements of a Json list; non-lists contribute no elements.  (The
Python source only ever iterates these fields when they hold lists; a truthy
non-list would make Python iterate characters or raise, which no claim
exercises.) -/
def jsonElems : Json → List Json
  | .arr xs => xs
  | _ => []

/-- Python str.strip(): drop whitespace from both ends. -/
def pyStrip (s : String) : String :=
  ⟨((s.toList.dropWhile Char.isWhitespace).reverse.dropWhile Char.isWhitespace).reverse⟩

/-- Python str(v) for a Json value.  List and dict renderings are abbreviated;
no verified claim depends on these renderings, only on the strings flowing
through category deduplication. -/
def pyStr : Json → String
  | .str s => s
  | .num n => toString n
  | .bool true => "True"
  | .bool false => "False"
  | .null => "None"
  | .arr _ => "[...]"
  | .obj _ => "\x7b...\x7d"

/-- cat.strip() applied to a Json list entry: strips string entries, leaves
other values unchanged (Python would raise on a non-string; the source only
feeds strings here). -/
def Json.stripStr : Json → Json
  | .str s => .str (pyStrip s)
  | j => j

/-- The longest prefix of a character list that stops right before the first
occurrence of sep; the whole list when sep does not occur.  This is Python
s.split(sep)[0]. -/
def takeBeforeSub (sep : List Char) : List Char → List Char
  | [] => []
  | c :: rest => if sep.isPrefixOf (c :: rest) then [] else c :: takeBeforeSub sep rest

/-- Whether sep occurs as a contiguous sublist; Python `sep in s`. -/
def containsSub (sep : List Char) : List Char → Bool
  | [] => sep.isEmpty
  | c :: rest => sep.isPrefixOf (c :: rest) || containsSub sep rest

/-- Python s.split(sep)[0] at string level. -/
def splitHead (sep t : String) : String := ⟨takeBeforeSub sep.toList t.toList⟩

/- ===== src/oxylabs_client.py ===== -/

/-- Python `value or {}` as applied to an extracted content field: a falsy
content is replaced by the empty dict. -/
def contentOrEmpty (c : Json) : Json := if c.isFalsy then Json.obj [] else c

/-- The first arm of _extract_content: when the payload has a "results" key
holding a non-empty list whose first element is a dict with a "content" key,
that content (empty dict when falsy); otherwise nothing. -/
def resultsContent (kvs : List (String × Json)) : Option Json :=
  match lookupKey kvs "results" with
  | some (.arr (first :: _)) =>
    match first with
    | .obj fkvs => (lookupKey fkvs "content").map contentOrEmpty
    | _ => none
  | _ => none

/-- _extract_content from src/oxylabs_client.py: unwrap either response
envelope (results[0].content, or a top-level content key), falling back to
the payload itself. -/
def extract_content (payload : Json) : Json :=
  match payload with
  | .obj kvs =>
    match resultsContent kvs with
    | some c => c
    | none =>
      match lookupKey kvs "content" with
      | some c => contentOrEmpty c
      | none => payload
  | _ => payload

/-- Whether a payload matches one of the two supported envelope shapes
(used to state the fall-through arm of _extract_content). -/
def matchesEnvelope (payload : Json) : Bool :=
  match payload with
  | .obj kvs => (resultsContent kvs).isSome || (lookupKey kvs "content").isSome
  | _ => false

/-- The normalized product record built by _normalize_product, stamped by
scrape_product_details with its search context, and tagged with parent_asin
by the orchestration service when stored as a competitor. -/
structure ProductRecord where
  asin : Json := .null
  url : Json := .null
  brand : Json := .null
  price : Json := .null
  stock : Json := .null
  title : Json := .null
  rating : Json := .null
  images : Json := .arr []
  categories : Json := .arr []
  category_path : List Json := []
  currency : Json := .null
  buybox : Json := .arr []
  product_overview : Json := .arr []
  amazon_domain : String := ""
  geo_location : String := ""
  parent_asin : Option String := none

/-- _normalize_product from src/oxylabs_client.py. -/
def normalize_product (content : Json) : ProductRecord :=
  let category_path :=
    if (content.get "category_path").isFalsy then []
    else ((jsonElems (content.get "category_path")).filter (fun c => !c.isFalsy)).map Json.stripStr
  { asin := content.get "asin"
    url := content.get "url"
    brand := content.get "brand"
    price := content.get "price"
    stock := content.get "stock"
    title := content.get "title"
    rating := content.get "rating"
    images := content.getD "images" (.arr [])
    categories :=
      (let c1 := content.getD "category" (.arr [])
       if c1.isFalsy then content.getD "categories" (.arr []) else c1)
    category_path := category_path
    currency := content.get "currency"
    buybox := content.getD "buybox" (.arr [])
    product_overview := content.getD "product_overview" (.arr []) }

/-- scrape_product_details from src/oxylabs_client.py.  The network call
_post_query is modelled by the raw response argument; the function extracts
the content, normalizes it, backfills a falsy asin with the requested one,
and stamps the search context. -/
def scrape_product_details (raw : Json) (asin geo_location domain : String) : ProductRecord :=
  let content := extract_content raw
  let normalized := normalize_product content
  let backfilled :=
    if normalized.asin.isFalsy then { normalized with asin := .str asin } else normalized
  { backfilled with amazon_domain := domain, geo_location := geo_location }

/-- _clean_search_title from src/oxylabs_client.py: truncate at the first
" - " when present, then truncate the result at the first "|" when present,
then strip.  (Both truncations apply in sequence; the second tests the
already-truncated title.) -/
def clean_search_title (title : String) : String :=
  let t1 := if containsSub " - ".toList title.toList then splitHead " - " title else title
  let t2 := if containsSub "|".toList t1.toList then splitHead "|" t1 else t1
  pyStrip t2

/-- Spec-worded variant of title cleaning, for comparison only: truncate at
the first " - " if present, ELSE at the first "|" if present, then trim.
(The spec describes the separators as alternatives; the source applies both.) -/
def specCleanSearchTitle (title : String) : String :=
  pyStrip
    (if containsSub " - ".toList title.toList then splitHead " - " title
     else if containsSub "|".toList title.toList then splitHead "|" title
     else title)

/-- One search payload submitted by search_competitors. -/
structure SearchQuery where
  query : String
  domain : String
  page : Nat
  sort_by : String
  geo_location : String
  refinements : Option String
deriving Repr, DecidableEq

/-- The fixed search strategies of search_competitors, in source order. -/
def strategies : List String := ["featured", "price_asc", "price_desc", "avg_rating"]

/-- The category refinement attached to a search payload: present exactly
when the categories argument is truthy and its first element is truthy
(Python `if categories and categories[0]`). -/
def refinementOf (categories : Option (List String)) : Option String :=
  match categories with
  | some (c :: _) => if c ≠ "" then some c else none
  | _ => none

/-- The sequence of search payloads submitted by search_competitors from
src/oxylabs_client.py, in submission order: for each of the four strategies,
pages 1 through max(1, pages) (Python range(1, max(1, pages) + 1)), each
carrying the cleaned title and the optional category refinement.  Only the
query-emission behaviour of search_competitors is modelled here; the
accumulation of its results is abstracted by the per-category search outcome
in the orchestration model below. -/
def search_competitors_queries (query_title domain : String)
    (categories : Option (List String)) (pages : Int) (geo_location : String) :
    List SearchQuery :=
  let search_title := clean_search_title query_title
  strategies.flatMap (fun sb =>
    (List.range' 1 (max 1 pages).toNat).map (fun page =>
      { query := search_title
        domain := domain
        page := page
        sort_by := sb
        geo_location := geo_location
        refinements := refinementOf categories }))

/-- One normalized search hit, as produced by _normalize_search_result (its
asin and title are present and truthy by construction; the remaining fields
are passed through). -/
structure SearchHit where
  asin : String
  title : String
  category : Json := .null
  price : Json := .null
  rating : Json := .null

/-- One observable event of the batch loop in scrape_multiple_products: a
per-ASIN fetch attempt, or the fixed 0.3-second pause (time.sleep(0.3)). -/
inductive BatchEvent where
  | attempt (asin : String)
  | pause
deriving Repr, DecidableEq

/-- scrape_multiple_products from src/oxylabs_client.py, with the per-ASIN
scrape outcome supplied as a function (none models the scrape raising).  It
returns the collected products together with the trace of fetch attempts and
pauses: a successful attempt appends its product and then sleeps; a failed
attempt hits the `continue` in the except arm, which skips the sleep. -/
def scrape_multiple_products (fetch : String → Option ProductRecord) :
    List String → List ProductRecord × List BatchEvent
  | [] => ([], [])
  | a :: rest =>
    let step := scrape_multiple_products fetch rest
    match fetch a with
    | some p => (p :: step.1, .attempt a :: .pause :: step.2)
    | none => (step.1, .attempt a :: step.2)

/-- Whether a batch trace never has two consecutive fetch attempts with no
pause between them (the property the spec asserts of the batch loop). -/
def noAdjacentAttempts : List BatchEvent → Bool
  | .attempt _ :: .attempt _ :: _ => false
  | _ :: rest => noAdjacentAttempts rest
  | [] => true

/- ===== src/services.py ===== -/

/-- The candidate category set built by fetch_and_store_competitors: the
parent's categories and category_path entries (each list read only when
truthy, entries filtered to truthy and rendered with str), then restricted to
strings whose strip is non-empty, stripped, and deduplicated.  Python
materializes the set() in unspecified order; List.dedup fixes one order, and
every verified property (cap cardinalities, membership) is order
independent. -/
def candidateCategories (parent : Json) : List String :=
  let cats :=
    if (parent.get "categories").isFalsy then []
    else ((jsonElems (parent.get "categories")).filter (fun c => !c.isFalsy)).map pyStr
  let path :=
    if (parent.get "category_path").isFalsy then []
    else ((jsonElems (parent.get "category_path")).filter (fun c => !c.isFalsy)).map pyStr
  (((cats ++ path).filter (fun c => c ≠ "" && pyStrip c ≠ "")).map pyStrip).dedup

/-- The categories actually swept: the first 3 candidates
(search_categories[:3] in src/services.py). -/
def searchedCategories (parent : Json) : List String :=
  (candidateCategories parent).take 3

/-- All search hits accumulated across the swept categories; the outcome of
each single-category search_competitors call is supplied as a function of the
category (the parent's title and resolved domain/location are fixed across
the sweep and absorbed into that outcome function). -/
def allResults (searchFn : String → List SearchHit) (parent : Json) : List SearchHit :=
  (searchedCategories parent).flatMap searchFn

/-- The distinct candidate competitor ASINs: hits with a truthy asin that
differs from the parent's, deduplicated (Python list(set(...)), modelled in
first-occurrence order). -/
def competitorAsins (parent_asin : String) (hits : List SearchHit) : List String :=
  ((hits.map SearchHit.asin).filter (fun a => a ≠ "" && a ≠ parent_asin)).dedup

/-- The candidate ASINs whose details are fetched: the first 20
(competitor_asins[:20] in src/services.py). -/
def fetchedAsins (parent_asin : String) (hits : List SearchHit) : List String :=
  (competitorAsins parent_asin hits).take 20

/-- fetch_and_store_competitors from src/services.py.  The database lookup of
the parent is modelled by the getParent argument, the per-category search
outcome by searchFn, and the per-ASIN detail-scrape outcome by fetchFn.  It
returns the stored competitor records: each successfully fetched detail
record, tagged with parent_asin, in fetch order (inserts into the store are
exactly this list). -/
def fetch_and_store_competitors (getParent : Option Json)
    (searchFn : String → List SearchHit)
    (fetchFn : String → Option ProductRecord)
    (parent_asin : String) : List ProductRecord :=
  match getParent with
  | none => []
  | some parent =>
    let hits := allResults searchFn parent
    let details := (scrape_multiple_products fetchFn (fetchedAsins parent_asin hits)).1
    details.map (fun comp => { comp with parent_asin := some parent_asin })

/- ===== src/llm.py ===== -/

/-- CompetitorInsight from src/llm.py (pydantic model); floats are modelled
as rationals. -/
structure CompetitorInsight where
  asin : String
  title : Option String
  price : Option Rat
  currency : Option String
  rating : Option Rat
  key_points : List String

/-- AnalysisOutput from src/llm.py (pydantic model). -/
structure AnalysisOutput where
  summary : String
  positioning : String
  top_competitors : List CompetitorInsight
  recommendations : List String

/-- Python str(x) for an optional string (None renders as "None" inside an
f-string). -/
def pyOptStr : Option String → String
  | some s => s
  | none => "None"

/-- Python str(x) for an optional number (None renders as "None"). -/
def pyOptNum : Option Rat → String
  | some r => toString r
  | none => "None"

/-- One competitor line of the analyze_competition report in src/llm.py.
The price_str chain follows Python truthiness: the currency branch needs a
non-empty currency and a non-None, non-zero price; the dollar branch needs a
non-None, non-zero price; otherwise the literal "N/A".  The separator before
the rating is the three-character string that literally appears in the
source (the bytes U+201A U+2260 U+00EA). -/
def renderCompetitorLine (c : CompetitorInsight) : String :=
  let pts := if c.key_points.isEmpty then "" else String.intercalate "; " c.key_points
  let currency := c.currency.getD ""
  let price_str :=
    match c.price with
    | some p =>
      if currency ≠ "" ∧ p ≠ 0 then currency ++ " " ++ toString p
      else if p ≠ 0 then "$" ++ toString p
      else "N/A"
    | none => "N/A"
  "- " ++ c.asin ++ " | " ++ pyOptStr c.title ++ " | " ++ price_str ++ " | ‚≠ê " ++
    pyOptNum c.rating ++ " " ++ pts

/-- The plain-text rendering of a parsed AnalysisOutput in analyze_competition
(src/llm.py): summary, positioning, the first 5 competitors one line each,
and a recommendations section when non-empty, joined with newlines. -/
def renderAnalysis (result : AnalysisOutput) : String :=
  let lines := ["Summary:\n" ++ result.summary, "\nPositioning:\n" ++ result.positioning,
    "\nTop Competitors:"]
  let lines := lines ++ (result.top_competitors.take 5).map renderCompetitorLine
  let lines :=
    if result.recommendations.isEmpty then lines
    else lines ++ ["\nRecommendations:"] ++ result.recommendations.map (fun r => "- " ++ r)
  String.intercalate "\n" lines

/-- Spec-worded variant of the competitor line, for comparison only: the
price_str cases keyed on PRESENCE of currency and price (rather than
truthiness), and the literal word "rating" before the rating (the spec's
template), key points joined with semicolon-space. -/
def specRenderCompetitorLine (c : CompetitorInsight) : String :=
  let pts := String.intercalate "; " c.key_points
  let price_str :=
    match c.currency, c.price with
    | some cur, some p => cur ++ " " ++ toString p
    | none, some p => "$" ++ toString p
    | _, none => "N/A"
  "- " ++ c.asin ++ " | " ++ pyOptStr c.title ++ " | " ++ price_str ++ " | rating " ++
    pyOptNum c.rating ++ " " ++ pts

/-- Spec-worded variant of the whole report rendering, for comparison only. -/
def specRenderAnalysis (result : AnalysisOutput) : String :=
  let lines := ["Summary:\n" ++ result.summary, "\nPositioning:\n" ++ result.positioning,
    "\nTop Competitors:"]
  let lines := lines ++ (result.top_competitors.take 5).map specRenderCompetitorLine
  let lines :=
    if result.recommendations.isEmpty then lines
    else lines ++ ["\nRecommendations:"] ++ result.recommendations.map (fun r => "- " ++ r)
  String.intercalate "\n" lines

/-- The externally visible effects of one analyze_competition call: how many
Product Store reads (get_product plus search_products) and how many LLM chain
invocations it performs. -/
structure AnalysisEffects where
  storeReads : Nat
  llmCalls : Nat
deriving Repr, DecidableEq

/-- analyze_competition from src/llm.py.  The environment credential is the
apiKeyEnv argument (none models an unset variable); the parsed LLM chain
outcome is the llmResult argument.  When the stripped credential is empty the
function returns the literal degradation text before touching the store or
the LLM (zero effects); otherwise it reads the parent and its competitors
(two store reads), invokes the chain once, and renders the report. -/
def analyze_competition (apiKeyEnv : Option String) (llmResult : AnalysisOutput) :
    String × AnalysisEffects :=
  let api_key := pyStrip (apiKeyEnv.getD "")
  if api_key = "" then
    ("Set OPENAI_API_KEY to run LLM analysis.", { storeReads := 0, llmCalls := 0 })
  else
    (renderAnalysis llmResult, { storeReads := 2, llmCalls := 1 })

/- ===== Helper lemmas ===== -/

/-- The products component of the batch loop is exactly the filterMap of the
fetch outcome over the input ASINs. -/
theorem scrape_multiple_products_fst (fetch : String → Option ProductRecord) :
    ∀ asins : List String, (scrape_multiple_products fetch asins).1 = asins.filterMap fetch
  | [] => rfl
  | a :: rest => by
    simp only [scrape_multiple_products, List.filterMap_cons]
    cases h : fetch a <;>
      simp [h, scrape_multiple_products_fst fetch rest]

/-- When sep does not occur in l, truncation before sep is the identity. -/
theorem takeBeforeSub_eq_of_not_contains (sep : List Char) :
    ∀ l : List Char, containsSub sep l = false → takeBeforeSub sep l = l
  | [], _ => rfl
  | c :: rest, h => by
    simp only [containsSub, Bool.or_eq_false_iff] at h
    simp only [takeBeforeSub, h.1, if_neg]
    rw [takeBeforeSub_eq_of_not_contains sep rest h.2]
    simp [h.1]

/-- One conditional truncation step of clean_search_title, rewritten without
the containment test: it always equals truncation before the separator. -/
theorem truncStep (sep t : String) :
    (if containsSub sep.toList t.toList then splitHead sep t else t) =
      ⟨takeBeforeSub sep.toList t.toList⟩ := by
  cases h : containsSub sep.toList t.toList with
  | true => simp [h, splitHead]
  | false =>
    simp only [h, Bool.false_eq_true, if_false]
    rw [takeBeforeSub_eq_of_not_contains _ _ h]
    rfl

/- ===== Claim theorems ===== -/

/-- C1: for every parent record and every outcome of the competitor search
sweep, fetch_and_store_competitors sweeps at most 3 candidate categories,
fetches details for at most 20 distinct candidate ASINs, and consequently
stores at most 20 competitor records, regardless of how many candidate
categories or distinct candidate ASINs exist. -/
theorem competitor_volume_caps (parent : Json) (parent_asin : String)
    (searchFn : String → List SearchHit) (fetchFn : String → Option ProductRecord) :
    (searchedCategories parent).length ≤ 3 ∧
    (fetchedAsins parent_asin (allResults searchFn parent)).length ≤ 20 ∧
    (fetch_and_store_competitors (some parent) searchFn fetchFn parent_asin).length ≤ 20 := by
  refine ⟨List.length_take_le _ _, List.length_take_le _ _, ?_⟩
  simp only [fetch_and_store_competitors, List.length_map, scrape_multiple_products_fst]
  calc ((fetchedAsins parent_asin (allResults searchFn parent)).filterMap fetchFn).length
      ≤ (fetchedAsins parent_asin (allResults searchFn parent)).length :=
        List.length_filterMap_le _ _
    _ ≤ 20 := List.length_take_le _ _

/-- C2: for every parent ASIN and every outcome of the discovery sweep (even
one returning the parent itself as a hit), the candidate competitor ASIN set
excludes the parent's ASIN; hence, as long as each detail fetch yields a
record carrying the ASIN it was asked for, no record stored as a competitor
of the parent has the parent's ASIN. -/
theorem competitor_self_exclusion (parent_asin : String) (parent : Json)
    (searchFn : String → List SearchHit) (fetchFn : String → Option ProductRecord)
    (hfetch : ∀ a r, fetchFn a = some r → r.asin = Json.str a) :
    parent_asin ∉ competitorAsins parent_asin (allResults searchFn parent) ∧
    ∀ rec ∈ fetch_and_store_competitors (some parent) searchFn fetchFn parent_asin,
      rec.asin ≠ Json.str parent_asin := by
  constructor
  · intro hmem
    rw [competitorAsins, List.mem_dedup, List.mem_filter] at hmem
    simp at hmem
  · intro rec hrec
    simp only [fetch_and_store_competitors, List.mem_map,
      scrape_multiple_products_fst, List.mem_filterMap] at hrec
    obtain ⟨comp, ⟨a, ha, hfa⟩, hrec⟩ := hrec
    have hasin : rec.asin = comp.asin := by rw [← hrec]
    have hcomp := hfetch a comp hfa
    have hane : a ≠ parent_asin := by
      have := List.take_subset _ _ ha
      rw [competitorAsins, List.mem_dedup, List.mem_filter] at this
      have hpred := this.2
      simp only [Bool.and_eq_true, decide_eq_true_eq] at hpred
      exact hpred.2
    rw [hasin, hcomp]
    intro hcontra
    exact hane (by injection hcontra)

/-- C3: extract_content yields the same mapping from either envelope shape
(results-list wrapping or top-level content), yields the empty mapping when
the inner content is null, and returns unchanged any payload matching
neither envelope shape. -/
theorem extract_content_round_trip (C : List (String × Json)) :
    extract_content (.obj [("results", .arr [.obj [("content", .obj C)]])]) = .obj C ∧
    extract_content (.obj [("content", .obj C)]) = .obj C ∧
    extract_content (.obj [("results", .arr [.obj [("content", .null)]])]) = .obj [] ∧
    extract_content (.obj [("content", .null)]) = .obj [] ∧
    ∀ p : Json, matchesEnvelope p = false → extract_content p = p := by
  refine ⟨?_, ?_, rfl, rfl, ?_⟩
  · cases C with
    | nil => rfl
    | cons hd tl => rfl
  · cases C with
    | nil => rfl
    | cons hd tl => rfl
  · intro p hp
    cases p with
    | obj kvs =>
      simp only [matchesEnvelope, Bool.or_eq_false_iff] at hp
      cases hres : resultsContent kvs with
      | some c => rw [hres] at hp; simp at hp
      | none =>
        cases hcon : lookupKey kvs "content" with
        | some c => rw [hcon] at hp; simp at hp
        | none => simp [extract_content, hres, hcon]
    | null => rfl
    | bool b => rfl
    | num n => rfl
    | str s => rfl
    | arr xs => rfl

/-- C3 witness: both envelopes around a concrete one-key mapping unwrap to
that mapping, and a bare string payload is returned unchanged. -/
theorem extract_content_round_trip_witness :
    extract_content (.obj [("results", .arr [.obj [("content",
      .obj [("k", .str "v")])]])]) = .obj [("k", .str "v")] ∧
    extract_content (.obj [("content", .obj [("k", .str "v")])]) = .obj [("k", .str "v")] ∧
    extract_content (.str "plain") = .str "plain" := by
  have h := extract_content_round_trip [("k", Json.str "v")]
  exact ⟨h.1, h.2.1, h.2.2.2.2 (.str "plain") rfl⟩

/-- C4: when the normalized content of the scraping response omits the asin
field, scrape_product_details returns a record whose asin is the requested
ASIN; and for every non-empty requested ASIN the returned record's asin is
never falsy (never empty). -/
theorem asin_backfill (raw : Json) (A geo dom : String) (kvs : List (String × Json))
    (hc : extract_content raw = .obj kvs) :
    (lookupKey kvs "asin" = none → (scrape_product_details raw A geo dom).asin = .str A) ∧
    (A ≠ "" → (scrape_product_details raw A geo dom).asin.isFalsy = false) := by
  simp only [scrape_product_details, hc]
  constructor
  · intro h
    simp [normalize_product, Json.get, h, Json.isFalsy]
  · intro hA
    cases hf : (normalize_product (.obj kvs)).asin.isFalsy with
    | true =>
      simp only [hf, if_true]
      simp [Json.isFalsy, hA]
    | false =>
      simp only [hf, Bool.false_eq_true, if_false]

/-- C4 witness: a concrete response whose content has a title but no asin is
backfilled with the requested ASIN, which is non-falsy. -/
theorem asin_backfill_witness :
    extract_content (.obj [("content", .obj [("title", .str "T")])]) =
      .obj [("title", .str "T")] ∧
    lookupKey [("title", Json.str "T")] "asin" = none ∧
    ("B00TEST" : String) ≠ "" ∧
    (scrape_product_details (.obj [("content", .obj [("title", .str "T")])])
      "B00TEST" "11511" "eg").asin = .str "B00TEST" ∧
    (scrape_product_details (.obj [("content", .obj [("title", .str "T")])])
      "B00TEST" "11511" "eg").asin.isFalsy = false := by
  have h := asin_backfill (.obj [("content", .obj [("title", .str "T")])])
    "B00TEST" "11511" "eg" [("title", Json.str "T")] rfl
  exact ⟨rfl, rfl, by decide, h.1 rfl, h.2 (by decide)⟩

/-- C5: whenever the OPENAI_API_KEY environment value is absent or blank
(empty after stripping), analyze_competition returns exactly the literal
degradation text and performs zero Product Store reads and zero LLM calls. -/
theorem llm_graceful_degradation (apiKeyEnv : Option String) (llmResult : AnalysisOutput)
    (h : pyStrip (apiKeyEnv.getD "") = "") :
    analyze_competition apiKeyEnv llmResult =
      ("Set OPENAI_API_KEY to run LLM analysis.", { storeReads := 0, llmCalls := 0 }) := by
  simp [analyze_competition, h]

/-- C5 witness: a blank credential made of spaces strips to empty and yields
the literal text with zero effects. -/
theorem llm_graceful_degradation_witness :
    pyStrip ((some "   " : Option String).getD "") = "" ∧
    analyze_competition (some "   ") ⟨"", "", [], []⟩ =
      ("Set OPENAI_API_KEY to run LLM analysis.", { storeReads := 0, llmCalls := 0 }) :=
  ⟨by decide, llm_graceful_degradation (some "   ") ⟨"", "", [], []⟩ (by decide)⟩

/-- The concrete batch outcome used inside the C6 theorem: every ASIN fetch
succeeds except "A3". -/
def c6Rec (a : String) : ProductRecord := { asin := Json.str a }

/-- The concrete per-ASIN fetch outcome for the C6 example. -/
def c6Fetch : String → Option ProductRecord :=
  fun a => if a = "A3" then none else some (c6Rec a)

/-- C6: scrape_multiple_products returns exactly the records of the
successfully fetched ASINs in their original relative order, skipping each
failed ASIN and continuing the batch; in particular, 5 ASINs with the 3rd
failing yield the other 4 in order. -/
theorem batch_partial_failure (fetch : String → Option ProductRecord) (asins : List String) :
    (scrape_multiple_products fetch asins).1 = asins.filterMap fetch ∧
    (scrape_multiple_products c6Fetch ["A1", "A2", "A3", "A4", "A5"]).1 =
      [c6Rec "A1", c6Rec "A2", c6Rec "A4", c6Rec "A5"] :=
  ⟨scrape_multiple_products_fst fetch asins, rfl⟩

/-- The concrete product record for the C7 counterexample. -/
def c7Rec : ProductRecord := { asin := Json.str "B" }

/-- The concrete per-ASIN fetch outcome for the C7 counterexample: "A"
fails, everything else succeeds. -/
def c7Fetch : String → Option ProductRecord :=
  fun a => if a = "A" then none else some c7Rec

/-- C7 counterexample: in a batch over ["A", "B"] where the fetch of "A"
fails, the trace runs the two fetch attempts back to back with no pause
between them — the pause is skipped after a failed attempt (the `continue`
in the except arm jumps over time.sleep), so the claim that a pause occurs
between consecutive attempts regardless of outcome is false. -/
theorem pause_skipped_on_failure :
    c7Fetch "A" = none ∧
    (scrape_multiple_products c7Fetch ["A", "B"]).2 =
      [BatchEvent.attempt "A", BatchEvent.attempt "B", BatchEvent.pause] ∧
    noAdjacentAttempts (scrape_multiple_products c7Fetch ["A", "B"]).2 = false :=
  ⟨rfl, rfl, rfl⟩

/-- C7 amended: a 0.3-second pause occurs after each successful per-ASIN
fetch attempt, before the next attempt; after a failed attempt the batch
moves to the next ASIN without pausing. -/
theorem pause_only_after_success (fetch : String → Option ProductRecord)
    (a : String) (rest : List String) :
    (scrape_multiple_products fetch (a :: rest)).2 =
      BatchEvent.attempt a ::
        (if (fetch a).isSome then BatchEvent.pause :: (scrape_multiple_products fetch rest).2
         else (scrape_multiple_products fetch rest).2) := by
  simp only [scrape_multiple_products]
  cases h : fetch a <;> simp [h]

/-- C8 counterexample: on "X|Y - Z" the code truncates at " - " AND then at
"|", yielding "X", while the claim's else-if reading (truncate at " - " if
present, else at "|") yields "X|Y"; the two disagree, so the claim as stated
is false. -/
theorem clean_title_not_alternative :
    clean_search_title "X|Y - Z" = "X" ∧
    specCleanSearchTitle "X|Y - Z" = "X|Y" ∧
    clean_search_title "X|Y - Z" ≠ specCleanSearchTitle "X|Y - Z" :=
  ⟨by decide, by decide, by decide⟩

/-- C8 amended: clean_search_title truncates the title at the first " - "
when present, THEN additionally truncates the result at the first "|" when
present, then strips surrounding whitespace; in particular
"Wireless Mouse - Black | 2.4GHz" cleans to "Wireless Mouse". -/
theorem clean_title_sequential_truncation (t : String) :
    clean_search_title t =
      pyStrip ⟨takeBeforeSub "|".toList (takeBeforeSub " - ".toList t.toList)⟩ ∧
    clean_search_title "Wireless Mouse - Black | 2.4GHz" = "Wireless Mouse" := by
  constructor
  · simp only [clean_search_title]
    rw [truncStep " - " t, truncStep "|" ⟨takeBeforeSub " - ".toList t.toList⟩]
    rfl
  · decide

/-- The concrete competitor for the C9 counterexample: a present price of 0
and no currency. -/
def c9Comp : CompetitorInsight := ⟨"B0C0", some "Widget", some 0, none, none, []⟩

/-- The concrete parsed analysis output for the C9 counterexample. -/
def c9Out : AnalysisOutput := ⟨"s", "p", [c9Comp], []⟩

/-- C9 counterexample: at a parsed output whose single competitor has a
present price equal to 0 and no currency, the code renders the price slot as
"N/A" (Python truthiness treats a 0 price as absent) where the claim's
presence-based reading demands a dollar-prefixed price, and the code
separates the rating with the literal three-character star sequence from the
source rather than the claim's literal word "rating"; the rendered report
therefore differs from the claim's template. -/
theorem report_line_spec_mismatch :
    renderAnalysis c9Out ≠ specRenderAnalysis c9Out ∧
    renderAnalysis c9Out =
      "Summary:\ns\n\nPositioning:\np\n\nTop Competitors:\n- B0C0 | Widget | N/A | ‚≠ê None " ∧
    specRenderAnalysis c9Out =
      "Summary:\ns\n\nPositioning:\np\n\nTop Competitors:\n- B0C0 | Widget | $0 | rating None " :=
  ⟨by decide, by decide, by decide⟩

/-- C9 amended: the rendered report lists at most the first 5 entries of
top_competitors, each as one line dash, asin, title, price_str, the
three-character star separator, rating, and the key points joined by
semicolon-space, where price_str is currency-space-price when the currency
is non-null and non-empty and the price is non-null and non-zero, else
dollar-price when the price is non-null and non-zero, else the literal
"N/A". -/
theorem report_competitor_lines (result : AnalysisOutput) :
    renderAnalysis result =
      String.intercalate "\n"
        ((["Summary:\n" ++ result.summary, "\nPositioning:\n" ++ result.positioning,
           "\nTop Competitors:"]
          ++ (result.top_competitors.take 5).map renderCompetitorLine)
          ++ (if result.recommendations.isEmpty then []
              else "\nRecommendations:" :: result.recommendations.map (fun r => "- " ++ r))) ∧
    ((result.top_competitors.take 5).map renderCompetitorLine).length ≤ 5 ∧
    ∀ c : CompetitorInsight, renderCompetitorLine c =
      "- " ++ c.asin ++ " | " ++ pyOptStr c.title ++ " | "
        ++ (match c.price with
            | some p =>
              if c.currency.getD "" ≠ "" ∧ p ≠ 0 then c.currency.getD "" ++ " " ++ toString p
              else if p ≠ 0 then "$" ++ toString p
              else "N/A"
            | none => "N/A")
        ++ " | ‚≠ê " ++ pyOptNum c.rating ++ " "
        ++ String.intercalate "; " c.key_points := by
  refine ⟨?_, ?_, ?_⟩
  · simp only [renderAnalysis]
    cases h : result.recommendations.isEmpty <;> simp [h]
  · rw [List.length_map]
    exact List.length_take_le _ _
  · intro c
    simp only [renderCompetitorLine]
    cases h : c.key_points.isEmpty with
    | true =>
      rw [List.isEmpty_iff.mp h]
      rfl
    | false => rfl

/-- C10: for every pages argument at most 0, search_competitors submits
exactly one query per sort strategy, each at page 1 (the page range is
max(1, pages)), and for every pages argument the submitted query list is
never empty. -/
theorem min_one_search_page (t d g : String) (cats : Option (List String)) (pages : Int) :
    (pages ≤ 0 →
      search_competitors_queries t d cats pages g =
        strategies.map (fun sb =>
          { query := clean_search_title t, domain := d, page := 1, sort_by := sb,
            geo_location := g, refinements := refinementOf cats })) ∧
    search_competitors_queries t d cats pages g ≠ [] := by
  have hmax : 1 ≤ (max 1 pages).toNat := by
    have h1 : (1 : Int) ≤ max 1 pages := le_max_left _ _
    omega
  constructor
  · intro hp
    have hone : (max 1 pages).toNat = 1 := by
      have h2 : max 1 pages = 1 := max_eq_left (by omega)
      rw [h2]
      rfl
    simp only [search_competitors_queries, hone]
    rfl
  · intro h
    have hlen := congrArg List.length h
    rw [search_competitors_queries, List.length_flatMap] at hlen
    simp only [List.length_map, List.length_range', strategies] at hlen
    simp at hlen

/-- C10 witness: at pages = -1 the sweep still submits one page-1 query per
strategy and the query list is non-empty. -/
theorem min_one_search_page_witness :
    ((-1 : Int) ≤ 0) ∧
    search_competitors_queries "T" "eg" (some ["Mice"]) (-1) "11511" =
      strategies.map (fun sb =>
        { query := clean_search_title "T", domain := "eg", page := 1, sort_by := sb,
          geo_location := "11511", refinements := refinementOf (some ["Mice"]) }) ∧
    search_competitors_queries "T" "eg" (some ["Mice"]) (-1) "11511" ≠ [] :=
  ⟨by decide,
   (min_one_search_page "T" "eg" "11511" (some ["Mice"]) (-1)).1 (by decide),
   (min_one_search_page "T" "eg" "11511" (some ["Mice"]) (-1)).2⟩

/-- The concrete per-category search outcome for the C2 witness: the sweep
returns the parent itself ("P") as a hit alongside another product. -/
def c2Search : String → List SearchHit :=
  fun _ => [{ asin := "P", title := "t" }, { asin := "Q", title := "t" }]

/-- The concrete per-ASIN fetch outcome for the C2 witness: every fetch
succeeds with a record carrying the requested ASIN. -/
def c2Fetch : String → Option ProductRecord :=
  fun a => some { asin := Json.str a }

/-- The concrete parent record for the C2 witness: one candidate category,
so the sweep actually runs. -/
def c2Parent : Json := .obj [("categories", .arr [.str "Cat"])]

/-- C2 witness: with a sweep that returns the parent ASIN "P" as a hit, the
candidate set excludes "P" and no stored competitor record carries asin
"P". -/
theorem competitor_self_exclusion_witness :
    (∀ a r, c2Fetch a = some r → r.asin = Json.str a) ∧
    ("P" ∉ competitorAsins "P" (allResults c2Search c2Parent) ∧
     ∀ rec ∈ fetch_and_store_competitors (some c2Parent) c2Search c2Fetch "P",
       rec.asin ≠ Json.str "P") :=
  ⟨fun a r h => by injection h with h2; rw [← h2],
   competitor_self_exclusion "P" c2Parent c2Search c2Fetch
     (fun a r h => by injection h with h2; rw [← h2])⟩
